import Mathlib

/-!
Shallow embedding of the dubbing backend (`src/build/modal_backend.py`) and of
the pieces of the Streamlit front-end it interacts with.  Pure logic (rate
limiting, validation, voice selection, per-segment folds) is translated
directly; effectful stages (network download, subprocess runs, model
inference, object-storage upload) are driven by an explicit environment of
stage outcomes, and the pipeline `dub_video` is a function from that
environment, the process-wide model cache and the rate-limit store to a
trace recording the terminal result, the lifecycle of the job directory and
the observable decisions taken along the way.
-/

namespace DubbingSoftware

/-! ### Rate limiter (`check_daily_limit`, modal_backend.py lines 66-92) -/

/-- Window pruning from line 83: keep timestamps `t` with `now - t < 86400`. -/
def prune (now : ℚ) (timestamps : List ℚ) : List ℚ :=
  timestamps.filter (fun t => now - t < 86400)

/-- Embedding of `check_daily_limit`.  The modal `rate_limiter` Dict is the
function `db` (absent keys read as `[]`, matching `rate_limiter.get(client_id, [])`).
Returns the admission boolean together with the store after the call. -/
def check_daily_limit (db : String → List ℚ) (now : ℚ) (client_id : String) :
    Bool × (String → List ℚ) :=
  if client_id = "" ∨ client_id = "anonymous" then
    (true, db)
  else
    let timestamps := db client_id
    let valid_timestamps := prune now timestamps
    if 3 ≤ valid_timestamps.length then
      (false, db)
    else
      (true, fun c => if c = client_id then valid_timestamps ++ [now] else db c)

/-! ### Validator (modal_backend.py lines 166-179) -/

/-- Character class of the regex `[a-zA-Z0-9_-]`. -/
def isSafeChar (c : Char) : Bool :=
  c.isAlpha || c.isDigit || c = '_' || c = '-'

/-- Embedding of `re.match(r"^[a-zA-Z0-9_-]+$", job_id)`, with Python's `$`
semantics: the anchor also matches just before a single newline at the very
end of the string. -/
def re_match_job_id (s : String) : Bool :=
  let cs := s.data
  (!cs.isEmpty && cs.all isSafeChar) ||
  ((cs.getLast? == some '\n') && !cs.dropLast.isEmpty && cs.dropLast.all isSafeChar)

/-- Structural prefix test on character lists (Python `str.startswith`). -/
def starts_with_chars : List Char → List Char → Bool
  | _, [] => true
  | [], _ :: _ => false
  | c :: cs, p :: ps => (c = p) && starts_with_chars cs ps

/-- Embedding of `video_url.startswith(("http://", "https://"))`. -/
def valid_url_scheme (url : String) : Bool :=
  starts_with_chars url.data "http://".data ||
  starts_with_chars url.data "https://".data

/-! ### Inbound request record (modal_backend.py lines 161-164) -/

/-- Inbound request payload `item`; optional fields model absent keys. -/
structure Item where
  job_id : String
  video_url : String
  target_lang : Option String
  client_id : Option String
deriving DecidableEq

/-- Line 164: `client_id = item.get("client_id", "unknown_user")`. -/
def Item.clientId (item : Item) : String :=
  item.client_id.getD "unknown_user"

/-- Line 163: `target_lang = item.get("target_lang", "hi")`. -/
def Item.targetLang (item : Item) : String :=
  item.target_lang.getD "hi"

/-! ### Gender detection (`detect_gender`, modal_backend.py lines 94-118) -/

/-- Embedding of `detect_gender`.  The librosa load / `pyin` / `nanmean`
computation is abstracted into the oracle `pyin`, called at the source's
literal arguments (path, 30 s duration, 50 Hz fmin, 400 Hz fmax):
`none` means the computation raised, `some none` means the mean was NaN
(no voiced frames), `some (some p)` a defined mean pitch `p`. -/
def detect_gender (pyin : String → ℚ → ℚ → ℚ → Option (Option ℚ))
    (audio_path : String) : String :=
  match pyin audio_path 30 50 400 with
  | none => "Male"
  | some none => "Male"
  | some (some mean_pitch) => if 165 < mean_pitch then "Female" else "Male"

/-! ### Edge TTS voice table (modal_backend.py lines 293-306) -/

/-- The `edge_voices` dict: language code to (Male voice, Female voice). -/
def edge_voices (lang : String) : Option (String × String) :=
  if lang = "kn" then some ("kn-IN-GaganNeural", "kn-IN-SapnaNeural")
  else if lang = "te" then some ("te-IN-MohanNeural", "te-IN-ShrutiNeural")
  else if lang = "ta" then some ("ta-IN-ValluvarNeural", "ta-IN-PallaviNeural")
  else if lang = "ml" then some ("ml-IN-MidhunNeural", "ml-IN-SobhanaNeural")
  else if lang = "mr" then some ("mr-IN-ManoharNeural", "mr-IN-AarohiNeural")
  else if lang = "gu" then some ("gu-IN-NiranjanNeural", "gu-IN-DhwaniNeural")
  else if lang = "bn" then some ("bn-BD-PradeepNeural", "bn-BD-NabanitaNeural")
  else if lang = "ur" then some ("ur-PK-UzairNeural", "ur-PK-UzmaNeural")
  else none

/-- Line 305: `edge_voices.get(target_lang, {"Male": "en-US-ChristopherNeural", "Female": "en-US-JennyNeural"})`. -/
def lang_voices (lang : String) : String × String :=
  (edge_voices lang).getD ("en-US-ChristopherNeural", "en-US-JennyNeural")

/-- Line 306: `lang_voices.get(gender, lang_voices["Male"])`. -/
def selected_voice (lang gender : String) : String :=
  if gender = "Male" then (lang_voices lang).1
  else if gender = "Female" then (lang_voices lang).2
  else (lang_voices lang).1

/-! ### Segments, translation (modal_backend.py lines 254-261) -/

/-- Transcript segment: source text plus the optional translated text the
translation stage fills in. -/
structure Segment where
  text : String
  translated_text : Option String := none
deriving DecidableEq

/-- Translation of one segment at position `k`: `tr k = some t` is a
successful `translator.translate`, `none` is a raised exception, caught by
the bare `except:` which falls back to the source text (lines 258-261). -/
def translate_one (tr : ℕ → Option String) (k : ℕ) (seg : Segment) : Segment :=
  match tr k with
  | some t => { seg with translated_text := some t }
  | none => { seg with translated_text := some seg.text }

/-- The translation loop, carrying the position of the head segment. -/
def translate_from (tr : ℕ → Option String) : ℕ → List Segment → List Segment
  | _, [] => []
  | i, seg :: rest => translate_one tr i seg :: translate_from tr (i + 1) rest

/-- Embedding of the `for seg in result["segments"]` translation loop. -/
def translate_segments (tr : ℕ → Option String) (segs : List Segment) : List Segment :=
  translate_from tr 0 segs

/-- Python truthiness test `if not seg.get("translated_text"): continue`:
a segment takes part in synthesis iff its translated text is present and
non-empty. -/
def has_translated_text (seg : Segment) : Bool :=
  match seg.translated_text with
  | none => false
  | some t => !(t == "")

/-! ### Synthesis (modal_backend.py lines 263-326) -/

/-- One `XTTS_MODEL.tts(...)` invocation as made on line 277. -/
structure XttsCall where
  text : String
  speaker_wav : String
  language : String
deriving DecidableEq

/-- Cloning-mode loop (lines 274-281): for each segment with usable
translated text an XTTS call is attempted; `xtts k = some w` yields waveform
`w` appended to `combined`, `none` is a caught per-segment exception that
contributes nothing.  Returns the attempted calls and the combined track. -/
def synth_cloning_from (xtts : ℕ → Option (List ℚ)) (vocals lang : String) :
    ℕ → List Segment → List XttsCall × List ℚ
  | _, [] => ([], [])
  | i, seg :: rest =>
    let tail := synth_cloning_from xtts vocals lang (i + 1) rest
    if has_translated_text seg then
      match xtts i with
      | some w => (⟨seg.translated_text.getD "", vocals, lang⟩ :: tail.1, w ++ tail.2)
      | none => (⟨seg.translated_text.getD "", vocals, lang⟩ :: tail.1, tail.2)
    else tail

/-- Fallback-mode loop (lines 309-324): per-segment Edge TTS synthesis with
the same skip-on-failure policy; `edge k` is the resampled waveform read
back from the temporary mp3, `none` a caught per-segment failure. -/
def synth_edge_from (edge : ℕ → Option (List ℚ)) : ℕ → List Segment → List ℚ
  | _, [] => []
  | i, seg :: rest =>
    let tail := synth_edge_from edge (i + 1) rest
    if has_translated_text seg then
      match edge i with
      | some w => w ++ tail
      | none => tail
    else tail

/-- The fixed cloning-capable language set (line 264). -/
def xtts_langs : List String :=
  ["en", "es", "fr", "de", "it", "pt", "pl", "tr", "ru", "nl", "cs", "ar",
   "zh", "ja", "ko", "hi"]

/-! ### Mixer (modal_backend.py lines 328-339) -/

/-- The ffmpeg filter graph built on lines 331-335, recorded declaratively. -/
structure MixGraph where
  video_input : String
  vcodec : String
  audio_input : String
  bg_input : String
  bg_volume : ℚ
  amix_inputs : ℕ
  amix_duration : String
  acodec : String
  out_file : String
deriving DecidableEq

/-- Graph construction for a given job's artifact paths. -/
def build_mix_graph (video_path dubbed_audio bg final_video : String) : MixGraph :=
  { video_input := video_path
    vcodec := "copy"
    audio_input := dubbed_audio
    bg_input := bg
    bg_volume := 1 / 2
    amix_inputs := 2
    amix_duration := "first"
    acodec := "aac"
    out_file := final_video }

/-- The `volume` filter: pointwise gain. -/
def attenuate (gain : ℚ) (w : List ℚ) : List ℚ :=
  w.map (fun x => gain * x)

/-- Semantics of `amix` with `duration="first"`: the output has the first
input's length; a missing sample of the second input is silence. -/
def amix_first (a b : List ℚ) : List ℚ :=
  (List.range a.length).map (fun i => a.getD i 0 + b.getD i 0)

/-! ### Job paths (modal_backend.py lines 59-61, 188-195) -/

def MOUNT_PATH : String := "/data"

def BASE_DIR : String := MOUNT_PATH ++ "/dubbing"

def job_dir (job_id : String) : String := BASE_DIR ++ "/" ++ job_id

def video_path (job_id : String) : String := job_dir job_id ++ "/video.mp4"

def dubbed_audio_path (job_id : String) : String := job_dir job_id ++ "/dubbed.wav"

def final_video_path (job_id : String) : String := job_dir job_id ++ "/final_dubbed.mp4"

/-! ### The pipeline as a state machine -/

/-- Process-wide model cache (the module-level globals, lines 8-12).
`align_lang` records, when a model is cached, which detected language it was
loaded for on line 246. -/
structure GlobalCache where
  whisper_loaded : Bool := false
  align_lang : Option String := none
  diarizer_loaded : Bool := false
  xtts_loaded : Bool := false
deriving DecidableEq

/-- Outcomes of the effectful stages and the data the external engines
return, fixed up front so `dub_video` is a pure function of them. -/
structure Env where
  now : ℚ
  download_ok : Bool
  extract_ok : Bool
  demucs_ok : Bool
  vocals_found : Bool
  vocals_path : String
  bg_path : String
  bg_wav : List ℚ
  transcribe_ok : Bool
  segments : List Segment
  detected_lang : String
  tr : ℕ → Option String
  pyin : String → ℚ → ℚ → ℚ → Option (Option ℚ)
  xtts : ℕ → Option (List ℚ)
  edge : ℕ → Option (List ℚ)
  mix_ok : Bool
  upload_ok : Bool
  presigned_url : String

/-- Terminal outcome of one invocation: the structured success / error JSON
response, or an uncaught Python exception escaping the handler. -/
inductive RunResult where
  | success (video_url : String)
  | err (message : String)
  | exception
deriving DecidableEq

/-- Which synthesis branch the job took (line 267). -/
inductive SynthMode where
  | cloning
  | fallback
deriving DecidableEq

/-- Observable trace of one `dub_video` invocation. -/
structure Trace where
  result : RunResult
  dir_created : Bool
  dir_exists : Bool
  db : String → List ℚ
  cache : GlobalCache
  rate_checked : Bool
  align_lang_used : Option String
  mode : Option SynthMode
  gender_calls : ℕ
  gender : Option String
  voice : Option String
  xtts_calls : List XttsCall
  dubbed_track : Option (List ℚ)
  mix_graph : Option MixGraph
  final_audio : Option (List ℚ)

/-- Trace before anything observable has happened. -/
def Trace.base (db : String → List ℚ) (cache : GlobalCache) : Trace :=
  { result := .exception
    dir_created := false
    dir_exists := false
    db := db
    cache := cache
    rate_checked := false
    align_lang_used := none
    mode := none
    gender_calls := 0
    gender := none
    voice := none
    xtts_calls := []
    dubbed_track := none
    mix_graph := none
    final_audio := none }

/-- Steps 7 and 8 of the pipeline (lines 328-355): mixing, upload, final
cleanup.  `t` is the trace accumulated up to the end of synthesis. -/
def mix_and_upload (env : Env) (jid : String) (t : Trace) : Trace :=
  let g := build_mix_graph (video_path jid) (dubbed_audio_path jid) env.bg_path
    (final_video_path jid)
  if env.mix_ok = false then
    { t with result := .err "Mixing failed", dir_exists := false, mix_graph := some g }
  else
    let mixed := amix_first (t.dubbed_track.getD []) (attenuate (1 / 2) env.bg_wav)
    if env.upload_ok = false then
      { t with result := .exception, mix_graph := some g, final_audio := some mixed }
    else
      { t with
          result := .success env.presigned_url
          dir_exists := false
          mix_graph := some g
          final_audio := some mixed }

/-- Embedding of `dub_video` (modal_backend.py lines 135-355) as a function
of the stage environment, the process-wide cache and the rate-limit store.
Each early `return` in the source is an early branch here; a stage whose
failure the source does not catch terminates the run with
`RunResult.exception` and, crucially, without touching the job directory. -/
def dub_video (env : Env) (cache : GlobalCache) (db : String → List ℚ)
    (item : Item) : Trace :=
  let jid := item.job_id
  if re_match_job_id jid = false then
    { Trace.base db cache with result := .err "Invalid job_id format. Security Block." }
  else if valid_url_scheme item.video_url = false then
    { Trace.base db cache with result := .err "Invalid URL scheme." }
  else
    let rl := check_daily_limit db env.now item.clientId
    if rl.1 = false then
      { Trace.base db cache with
          result := .err "Daily limit reached (3/3). Please try again in 24 hours."
          rate_checked := true }
    else
      let db1 := rl.2
      -- os.makedirs(job_dir, exist_ok=True): the directory now exists.
      if env.download_ok = false then
        { Trace.base db1 cache with
            result := .exception
            rate_checked := true
            dir_created := true
            dir_exists := true }
      else if env.extract_ok = false then
        { Trace.base db1 cache with
            result := .exception
            rate_checked := true
            dir_created := true
            dir_exists := true }
      else if env.demucs_ok = false then
        { Trace.base db1 cache with
            result := .exception
            rate_checked := true
            dir_created := true
            dir_exists := true }
      else if env.vocals_found = false then
        -- line 231: shutil.rmtree(job_dir); return Demucs error
        { Trace.base db1 cache with
            result := .err "Demucs failed"
            rate_checked := true
            dir_created := true
            dir_exists := false }
      else if env.transcribe_ok = false then
        { Trace.base db1 { cache with whisper_loaded := true } with
            result := .exception
            rate_checked := true
            dir_created := true
            dir_exists := true }
      else
        -- line 245-247: load align model only if the global is None
        let used_align := cache.align_lang.getD env.detected_lang
        let cache1 : GlobalCache :=
          { cache with
              whisper_loaded := true
              align_lang := some used_align
              diarizer_loaded := true }
        let segs := translate_segments env.tr env.segments
        let t0 : Trace :=
          { Trace.base db1 cache1 with
              rate_checked := true
              dir_created := true
              dir_exists := true
              align_lang_used := some used_align }
        if xtts_langs.contains item.targetLang then
          let sc := synth_cloning_from env.xtts env.vocals_path item.targetLang 0 segs
          mix_and_upload env jid
            { t0 with
                cache := { cache1 with xtts_loaded := true }
                mode := some .cloning
                xtts_calls := sc.1
                dubbed_track := some sc.2 }
        else
          let g := detect_gender env.pyin env.vocals_path
          let v := selected_voice item.targetLang g
          let combined := synth_edge_from env.edge 0 segs
          mix_and_upload env jid
            { t0 with
                mode := some .fallback
                gender_calls := 1
                gender := some g
                voice := some v
                dubbed_track := some combined }

/-- Stage preconditions under which an invocation reaches the synthesis
branch: validation passes, the rate limiter admits, and every earlier
effectful stage succeeds. -/
def reaches_synthesis (env : Env) (db : String → List ℚ) (item : Item) : Prop :=
  re_match_job_id item.job_id = true ∧
  valid_url_scheme item.video_url = true ∧
  (check_daily_limit db env.now item.clientId).1 = true ∧
  env.download_ok = true ∧ env.extract_ok = true ∧ env.demucs_ok = true ∧
  env.vocals_found = true ∧ env.transcribe_ok = true

/-! ### Concrete inputs used by witnesses and counterexamples -/

/-- Store in which client `alice` has three recent uses. -/
def exDB : String → List ℚ := fun c => if c = "alice" then [0, 1, 2] else []

/-- Store in which the defaulted identifier `unknown_user` has three recent uses. -/
def exDB2 : String → List ℚ := fun c => if c = "unknown_user" then [10, 20, 30] else []

/-- Empty rate-limit store. -/
def db0 : String → List ℚ := fun _ => []

/-- Fresh process: no model loaded yet. -/
def cache0 : GlobalCache := {}

/-- A well-formed request targeting Hindi (cloning-capable). -/
def item0 : Item :=
  { job_id := "job1"
    video_url := "http://example.com/v.mp4"
    target_lang := some "hi"
    client_id := some "carol" }

/-- A well-formed request targeting Kannada (not cloning-capable). -/
def item_kn : Item :=
  { job_id := "job_1700000000"
    video_url := "https://example.com/v.mp4"
    target_lang := some "kn"
    client_id := some "bob" }

/-- Environment of an entirely successful run. -/
def env0 : Env :=
  { now := 1000
    download_ok := true
    extract_ok := true
    demucs_ok := true
    vocals_found := true
    vocals_path := "/data/dubbing/job1/separated/htdemucs/audio/vocals.wav"
    bg_path := "/data/dubbing/job1/separated/htdemucs/audio/no_vocals.wav"
    bg_wav := [1, 2]
    transcribe_ok := true
    segments := [{ text := "hello" }]
    detected_lang := "en"
    tr := fun _ => some "namaste"
    pyin := fun _ _ _ _ => some (some 120)
    xtts := fun _ => some [3, 4]
    edge := fun _ => some [5]
    mix_ok := true
    upload_ok := true
    presigned_url := "https://r2.example.com/dubbed/job1.mp4" }

/-- Environment whose video download raises (`requests` failure). -/
def env_dl_fail : Env := { env0 with download_ok := false }

/-- Environment identical to `env0` but with detected source language `fr`. -/
def env_fr : Env := { env0 with detected_lang := "fr" }

/-- Environment where every translation yields the empty string. -/
def env_empty_tr : Env := { env0 with tr := fun _ => some "" }

/-- Environment where every per-segment translation raises. -/
def env_tr_fail : Env := { env0 with tr := fun _ => none }

/-- Request whose job identifier carries a trailing newline. -/
def item_newline : Item :=
  { job_id := "a\n"
    video_url := "http://example.com/v.mp4"
    target_lang := some "hi"
    client_id := some "carol" }


theorem translate_from_length (tr : ℕ → Option String) (i : ℕ) (l : List Segment) :
    (translate_from tr i l).length = l.length := by
  induction l generalizing i with
  | nil => rfl
  | cons a l ih => simp [translate_from, ih]

theorem translate_segments_length (tr : ℕ → Option String) (l : List Segment) :
    (translate_segments tr l).length = l.length :=
  translate_from_length tr 0 l

theorem translate_one_text (tr : ℕ → Option String) (k : ℕ) (seg : Segment) :
    (translate_one tr k seg).text = seg.text := by
  unfold translate_one; cases tr k <;> rfl

theorem translate_one_failed (tr : ℕ → Option String) (k : ℕ) (seg : Segment)
    (h : tr k = none) :
    (translate_one tr k seg).translated_text = some seg.text := by
  unfold translate_one; rw [h]

theorem translate_from_getElem? (tr : ℕ → Option String) (i : ℕ)
    (l : List Segment) (j : ℕ) :
    (translate_from tr i l)[j]? = Option.map (translate_one tr (i + j)) l[j]? := by
  induction l generalizing i j with
  | nil => simp [translate_from]
  | cons a l ih =>
    cases j with
    | zero => simp [translate_from]
    | succ j =>
      have harr : i + 1 + j = i + (j + 1) := by omega
      have := ih (i + 1) j
      simp only [translate_from, List.getElem?_cons_succ]
      rw [this, harr]

theorem translate_segments_get (tr : ℕ → Option String) (l : List Segment)
    (j : ℕ) (hj : j < l.length) :
    (translate_segments tr l).get ⟨j, by rw [translate_segments_length]; exact hj⟩ =
      translate_one tr j (l.get ⟨j, hj⟩) := by
  have hopt := translate_from_getElem? tr 0 l j
  rw [List.getElem?_eq_getElem hj] at hopt
  have hj2 : j < (translate_segments tr l).length := by
    rw [translate_segments_length]; exact hj
  unfold translate_segments at hj2 ⊢
  rw [List.getElem?_eq_getElem hj2] at hopt
  rw [Option.map_some'] at hopt
  rw [Option.some_inj] at hopt
  simp only [List.get_eq_getElem, Nat.zero_add] at hopt ⊢
  exact hopt

theorem synth_cloning_from_speaker (xtts : ℕ → Option (List ℚ)) (v lang : String)
    (i : ℕ) (l : List Segment) :
    ∀ c ∈ (synth_cloning_from xtts v lang i l).1, c.speaker_wav = v := by
  induction l generalizing i with
  | nil => simp [synth_cloning_from]
  | cons a l ih =>
    intro c hc
    by_cases ha : has_translated_text a
    · rcases hxt : xtts i with _ | w <;>
        simp only [synth_cloning_from, ha, hxt, if_true, List.mem_cons] at hc <;>
        rcases hc with hc | hc
      · rw [hc]
      · exact ih (i + 1) c hc
      · rw [hc]
      · exact ih (i + 1) c hc
    · simp only [synth_cloning_from, ha] at hc
      exact ih (i + 1) c (by simpa using hc)

theorem synth_cloning_from_no_text (xtts : ℕ → Option (List ℚ)) (v lang : String)
    (i : ℕ) (l : List Segment)
    (h : ∀ seg ∈ l, has_translated_text seg = false) :
    synth_cloning_from xtts v lang i l = ([], []) := by
  induction l generalizing i with
  | nil => rfl
  | cons a l ih =>
    have ha := h a (by simp)
    have ht := ih (i + 1) (fun s hs => h s (by simp [hs]))
    simp [synth_cloning_from, ha, ht]

theorem synth_cloning_from_all_fail (xtts : ℕ → Option (List ℚ)) (v lang : String)
    (i : ℕ) (l : List Segment) (h : ∀ k, xtts k = none) :
    (synth_cloning_from xtts v lang i l).2 = [] := by
  induction l generalizing i with
  | nil => rfl
  | cons a l ih =>
    by_cases ha : has_translated_text a <;>
      simp [synth_cloning_from, ha, h i, ih (i + 1)]

theorem synth_edge_from_no_text (edge : ℕ → Option (List ℚ))
    (i : ℕ) (l : List Segment)
    (h : ∀ seg ∈ l, has_translated_text seg = false) :
    synth_edge_from edge i l = [] := by
  induction l generalizing i with
  | nil => rfl
  | cons a l ih =>
    have ha := h a (by simp)
    have ht := ih (i + 1) (fun s hs => h s (by simp [hs]))
    simp [synth_edge_from, ha, ht]

theorem synth_edge_from_all_fail (edge : ℕ → Option (List ℚ))
    (i : ℕ) (l : List Segment) (h : ∀ k, edge k = none) :
    synth_edge_from edge i l = [] := by
  induction l generalizing i with
  | nil => rfl
  | cons a l ih =>
    by_cases ha : has_translated_text a <;>
      simp [synth_edge_from, ha, h i, ih (i + 1)]

theorem attenuate_getD (g : ℚ) (w : List ℚ) (k : ℕ) :
    (attenuate g w).getD k 0 = g * w.getD k 0 := by
  unfold attenuate
  rw [List.getD_eq_getElem?_getD, List.getD_eq_getElem?_getD, List.getElem?_map]
  cases w[k]? <;> simp

theorem amix_first_length (a b : List ℚ) : (amix_first a b).length = a.length := by
  unfold amix_first
  rw [List.length_map, List.length_range]

theorem amix_first_getD (a b : List ℚ) (k : ℕ) (hk : k < a.length) :
    (amix_first a b).getD k 0 = a.getD k 0 + b.getD k 0 := by
  unfold amix_first
  rw [List.getD_eq_getElem?_getD, List.getElem?_map, List.getElem?_range hk]
  simp

/-- C2: for a client identifier that is neither empty nor the anonymous
sentinel, `check_daily_limit` admits exactly when fewer than three stored
timestamps are younger than 86400 seconds; on admission the pruned record
with the current timestamp appended is persisted, on denial the store is
left untouched, and once the oldest of the three blocking timestamps has
aged past the window a later request is admitted again. -/
theorem C2_daily_limit_known_client (db : String → List ℚ) (now now2 t0 : ℚ)
    (cid : String) (hne : cid ≠ "") (hna : cid ≠ "anonymous") :
    ((check_daily_limit db now cid).1 = true ↔ (prune now (db cid)).length < 3) ∧
    ((prune now (db cid)).length < 3 →
      (check_daily_limit db now cid).2 cid = prune now (db cid) ++ [now]) ∧
    (3 ≤ (prune now (db cid)).length → (check_daily_limit db now cid).2 = db) ∧
    ((prune now (db cid)).length = 3 → t0 ∈ prune now (db cid) →
      (∀ t ∈ prune now (db cid), t0 ≤ t) → now ≤ now2 → 86400 ≤ now2 - t0 →
      (check_daily_limit db now2 cid).1 = true) := by
  have hcond : ¬(cid = "" ∨ cid = "anonymous") := by
    rintro (h | h) <;> [exact hne h; exact hna h]
  refine ⟨?_, ?_, ?_, ?_⟩
  · unfold check_daily_limit
    rw [if_neg hcond]
    by_cases hlen : 3 ≤ (prune now (db cid)).length
    · simp only [if_pos hlen]
      constructor
      · intro hb; exact absurd hb (by simp)
      · intro hlt; omega
    · simp only [if_neg hlen]
      constructor
      · intro _; omega
      · intro _; trivial
  · intro hlt
    unfold check_daily_limit
    rw [if_neg hcond]
    have : ¬ 3 ≤ (prune now (db cid)).length := by omega
    simp [this]
  · intro hge
    unfold check_daily_limit
    rw [if_neg hcond]
    simp [hge]
  · intro hlen3 ht0 hmin hle hexp
    unfold check_daily_limit
    rw [if_neg hcond]
    have hsub : prune now2 (db cid) = (prune now (db cid)).filter
        (fun t => decide (now2 - t < 86400)) := by
      unfold prune
      rw [List.filter_filter]
      refine (List.filter_congr ?_).symm
      intro t _
      by_cases h2 : now2 - t < 86400
      · have h1 : now - t < 86400 := by linarith
        simp [h1, h2]
      · simp [h2]
    have hlt : (prune now2 (db cid)).length < 3 := by
      rw [hsub]
      have := List.length_filter_lt_length_iff_exists
        (l := prune now (db cid)) (p := fun t => decide (now2 - t < 86400))
      rw [hlen3] at this
      exact this.mpr ⟨t0, ht0, by simp; linarith⟩
    have : ¬ 3 ≤ (prune now2 (db cid)).length := by omega
    simp [this]

/-- C2 witness: client `alice` with three fresh timestamps is denied at
time 10 and admitted again at time 90000. -/
theorem C2_daily_limit_known_client_witness :
    (check_daily_limit exDB 10 "alice").1 = false ∧
    (check_daily_limit exDB 90000 "alice").1 = true := by
  have h := C2_daily_limit_known_client exDB 10 90000 0 "alice"
    (by decide) (by decide)
  have hp : prune 10 (exDB "alice") = [0, 1, 2] := by
    norm_num [prune, exDB]
  constructor
  · rcases hb : (check_daily_limit exDB 10 "alice").1 with _ | _
    · rfl
    · exfalso
      have := h.1.mp hb
      rw [hp] at this
      norm_num at this
  · refine h.2.2.2 (by rw [hp]; rfl) (by rw [hp]; norm_num)
      (by rw [hp]; intro t ht; simp at ht; rcases ht with h | h | h <;> norm_num [h])
      (by norm_num) (by norm_num)

/-- C3 (amended): empty or anonymous identifiers are always admitted
without touching the store; an omitted `client_id` defaults to
`"unknown_user"`, not to the anonymous sentinel. -/
theorem C3_anonymous_always_admitted (db : String → List ℚ) (now : ℚ)
    (cid : String) (h : cid = "" ∨ cid = "anonymous") :
    (check_daily_limit db now cid).1 = true ∧
    (check_daily_limit db now cid).2 = db ∧
    (∀ item : Item, item.client_id = none → item.clientId = "unknown_user") := by
  refine ⟨?_, ?_, ?_⟩
  · unfold check_daily_limit; rw [if_pos h]
  · unfold check_daily_limit; rw [if_pos h]
  · intro item hnone
    unfold Item.clientId
    rw [hnone]
    rfl

/-- C3 witness: the anonymous sentinel is admitted against a store that
would block a metered client. -/
theorem C3_anonymous_always_admitted_witness :
    (check_daily_limit exDB2 100 "anonymous").1 = true :=
  (C3_anonymous_always_admitted exDB2 100 "anonymous" (Or.inr rfl)).1

/-- C3 counterexample: a request omitting `client_id` defaults to
`"unknown_user"`, which is metered like any known identifier, so with
three recent stored uses for `"unknown_user"` the request is denied. -/
theorem C3_default_client_counterexample :
    Item.clientId
      { job_id := "j", video_url := "http://x", target_lang := none,
        client_id := none } = "unknown_user" ∧
    (check_daily_limit exDB2 100 "unknown_user").1 = false := by
  constructor
  · rfl
  · norm_num [check_daily_limit, prune, exDB2]
    decide

/-- C4: the job-id validator accepts `"a\n"` even though the newline is
outside the safe character class (Python `$` matches before a trailing
newline), and such a request then reaches directory creation. -/
theorem C4_validator_accepts_trailing_newline :
    re_match_job_id "a\n" = true ∧
    isSafeChar '\n' = false ∧
    re_match_job_id "" = false ∧
    re_match_job_id "../etc" = false ∧
    valid_url_scheme "ftp://example.com/v.mp4" = false ∧
    (dub_video env0 cache0 db0 item_newline).dir_created = true ∧
    (dub_video env0 cache0 db0 item_newline).result =
      RunResult.success env0.presigned_url := by
  refine ⟨by decide, by decide, by decide, by decide, by decide, by decide, by decide⟩

/-- C7: `detect_gender` is total with range {"Male", "Female"}, returning
"Female" exactly when the pitch oracle yields a defined mean above 165 Hz
at the source's parameters (first 30 seconds, 50-400 Hz band), and "Male"
on an undefined mean or any error. -/
theorem C7_detect_gender_total
    (pyin : String → ℚ → ℚ → ℚ → Option (Option ℚ)) (path : String) :
    (detect_gender pyin path = "Male" ∨ detect_gender pyin path = "Female") ∧
    (detect_gender pyin path = "Female" ↔
      ∃ p : ℚ, pyin path 30 50 400 = some (some p) ∧ 165 < p) ∧
    (pyin path 30 50 400 = none → detect_gender pyin path = "Male") ∧
    (pyin path 30 50 400 = some none → detect_gender pyin path = "Male") := by
  unfold detect_gender
  rcases hp : pyin path 30 50 400 with _ | op
  · refine ⟨Or.inl rfl, ?_, fun _ => rfl, by simp⟩
    simp
  · rcases op with _ | p
    · refine ⟨Or.inl rfl, ?_, by simp, fun _ => rfl⟩
      simp
    · by_cases h165 : 165 < p
      · refine ⟨Or.inr (by simp [h165]), ?_, by simp, by simp⟩
        simp only [if_pos h165]
        constructor
        · intro _; exact ⟨p, rfl, h165⟩
        · intro _; trivial
      · refine ⟨Or.inl (by simp [h165]), ?_, by simp, by simp⟩
        simp only [if_neg h165]
        constructor
        · intro hMF; exact absurd hMF (by simp)
        · rintro ⟨q, hq, hq165⟩
          rw [Option.some_inj, Option.some_inj] at hq
          exact absurd (hq ▸ hq165) h165

theorem mix_and_upload_mode (env : Env) (jid : String) (t : Trace) :
    (mix_and_upload env jid t).mode = t.mode := by
  unfold mix_and_upload
  split
  · rfl
  · split <;> rfl

theorem mix_and_upload_gender_calls (env : Env) (jid : String) (t : Trace) :
    (mix_and_upload env jid t).gender_calls = t.gender_calls := by
  unfold mix_and_upload
  split
  · rfl
  · split <;> rfl

theorem mix_and_upload_voice (env : Env) (jid : String) (t : Trace) :
    (mix_and_upload env jid t).voice = t.voice := by
  unfold mix_and_upload
  split
  · rfl
  · split <;> rfl

theorem mix_and_upload_xtts_calls (env : Env) (jid : String) (t : Trace) :
    (mix_and_upload env jid t).xtts_calls = t.xtts_calls := by
  unfold mix_and_upload
  split
  · rfl
  · split <;> rfl

theorem mix_and_upload_dubbed_track (env : Env) (jid : String) (t : Trace) :
    (mix_and_upload env jid t).dubbed_track = t.dubbed_track := by
  unfold mix_and_upload
  split
  · rfl
  · split <;> rfl

theorem mix_and_upload_align_lang_used (env : Env) (jid : String) (t : Trace) :
    (mix_and_upload env jid t).align_lang_used = t.align_lang_used := by
  unfold mix_and_upload
  split
  · rfl
  · split <;> rfl

theorem mix_and_upload_dir_created (env : Env) (jid : String) (t : Trace) :
    (mix_and_upload env jid t).dir_created = t.dir_created := by
  unfold mix_and_upload
  split
  · rfl
  · split <;> rfl

theorem mix_and_upload_cache (env : Env) (jid : String) (t : Trace) :
    (mix_and_upload env jid t).cache = t.cache := by
  unfold mix_and_upload
  split
  · rfl
  · split <;> rfl

theorem mix_and_upload_mix_graph (env : Env) (jid : String) (t : Trace) :
    (mix_and_upload env jid t).mix_graph =
      some (build_mix_graph (video_path jid) (dubbed_audio_path jid) env.bg_path
        (final_video_path jid)) := by
  unfold mix_and_upload
  split
  · rfl
  · split <;> rfl

theorem mix_and_upload_mix_fail (env : Env) (jid : String) (t : Trace)
    (h : env.mix_ok = false) :
    (mix_and_upload env jid t).result = RunResult.err "Mixing failed" ∧
    (mix_and_upload env jid t).dir_exists = false := by
  unfold mix_and_upload
  rw [if_pos h]
  exact ⟨rfl, rfl⟩

theorem mix_and_upload_final_audio (env : Env) (jid : String) (t : Trace)
    (h : env.mix_ok = true) :
    (mix_and_upload env jid t).final_audio =
      some (amix_first (t.dubbed_track.getD []) (attenuate (1 / 2) env.bg_wav)) := by
  unfold mix_and_upload
  rw [if_neg (by simp [h])]
  split <;> rfl

theorem mix_and_upload_ok (env : Env) (jid : String) (t : Trace)
    (hm : env.mix_ok = true) (hu : env.upload_ok = true) :
    (mix_and_upload env jid t).result = RunResult.success env.presigned_url ∧
    (mix_and_upload env jid t).dir_exists = false := by
  unfold mix_and_upload
  rw [if_neg (by simp [hm])]
  rw [if_neg (by simp [hu])]
  exact ⟨rfl, rfl⟩

theorem mix_and_upload_upload_fail (env : Env) (jid : String) (t : Trace)
    (hm : env.mix_ok = true) (hu : env.upload_ok = false) :
    (mix_and_upload env jid t).result = RunResult.exception ∧
    (mix_and_upload env jid t).dir_exists = t.dir_exists := by
  unfold mix_and_upload
  rw [if_neg (by simp [hm])]
  rw [if_pos hu]
  exact ⟨rfl, rfl⟩

theorem dub_video_synth_branch (env : Env) (cache : GlobalCache)
    (db : String → List ℚ) (item : Item) (h : reaches_synthesis env db item) :
    dub_video env cache db item =
      (let used_align := cache.align_lang.getD env.detected_lang
       let cache1 : GlobalCache :=
         { cache with
             whisper_loaded := true
             align_lang := some used_align
             diarizer_loaded := true }
       let segs := translate_segments env.tr env.segments
       let t0 : Trace :=
         { Trace.base (check_daily_limit db env.now item.clientId).2 cache1 with
             rate_checked := true
             dir_created := true
             dir_exists := true
             align_lang_used := some used_align }
       if xtts_langs.contains item.targetLang then
         mix_and_upload env item.job_id
           { t0 with
               cache := { cache1 with xtts_loaded := true }
               mode := some .cloning
               xtts_calls := (synth_cloning_from env.xtts env.vocals_path item.targetLang 0 segs).1
               dubbed_track := some (synth_cloning_from env.xtts env.vocals_path item.targetLang 0 segs).2 }
       else
         mix_and_upload env item.job_id
           { t0 with
               mode := some .fallback
               gender_calls := 1
               gender := some (detect_gender env.pyin env.vocals_path)
               voice := some (selected_voice item.targetLang (detect_gender env.pyin env.vocals_path))
               dubbed_track := some (synth_edge_from env.edge 0 segs) }) := by
  obtain ⟨h1, h2, h3, h4, h5, h6, h7, h8⟩ := h
  simp only [dub_video]
  rw [h1, h2, h3, h4, h5, h6, h7, h8]
  simp only [Bool.true_eq_false, if_false]

/-- C1 (amended): once the job directory has been created, it is removed
exactly on the outcomes where the source returns a structured response
(success, the missing-separation-output error, the mixing error); every
uncaught exception (download, extraction, separation process, transcription
or upload failure) leaves the directory behind. -/
theorem C1_cleanup_iff (env : Env) (cache : GlobalCache) (db : String → List ℚ)
    (item : Item) (h : (dub_video env cache db item).dir_created = true) :
    ((dub_video env cache db item).dir_exists = false ↔
      (dub_video env cache db item).result ≠ RunResult.exception) := by
  by_cases h1 : re_match_job_id item.job_id = false
  · simp [dub_video, h1, Trace.base] at h
  · by_cases h2 : valid_url_scheme item.video_url = false
    · simp [dub_video, h1, h2, Trace.base] at h
    · by_cases h3 : (check_daily_limit db env.now item.clientId).1 = false
      · simp [dub_video, h1, h2, h3, Trace.base] at h
      · by_cases h4 : env.download_ok = false
        · simp [dub_video, h1, h2, h3, h4, Trace.base]
        · by_cases h5 : env.extract_ok = false
          · simp [dub_video, h1, h2, h3, h4, h5, Trace.base]
          · by_cases h6 : env.demucs_ok = false
            · simp [dub_video, h1, h2, h3, h4, h5, h6, Trace.base]
            · by_cases h7 : env.vocals_found = false
              · simp [dub_video, h1, h2, h3, h4, h5, h6, h7, Trace.base]
              · by_cases h8 : env.transcribe_ok = false
                · simp [dub_video, h1, h2, h3, h4, h5, h6, h7, h8, Trace.base]
                · by_cases hm : env.mix_ok = false
                  · by_cases hxl : item.targetLang ∈ xtts_langs
                    · simp [dub_video, mix_and_upload, h1, h2, h3, h4, h5, h6,
                        h7, h8, hm, hxl, Trace.base]
                    · simp [dub_video, mix_and_upload, h1, h2, h3, h4, h5, h6,
                        h7, h8, hm, hxl, Trace.base]
                  · by_cases hu : env.upload_ok = false
                    · by_cases hxl : item.targetLang ∈ xtts_langs
                      · simp [dub_video, mix_and_upload, h1, h2, h3, h4, h5, h6,
                          h7, h8, hm, hu, hxl, Trace.base]
                      · simp [dub_video, mix_and_upload, h1, h2, h3, h4, h5, h6,
                          h7, h8, hm, hu, hxl, Trace.base]
                    · by_cases hxl : item.targetLang ∈ xtts_langs
                      · simp [dub_video, mix_and_upload, h1, h2, h3, h4, h5, h6,
                          h7, h8, hm, hu, hxl, Trace.base]
                      · simp [dub_video, mix_and_upload, h1, h2, h3, h4, h5, h6,
                          h7, h8, hm, hu, hxl, Trace.base]

/-- C1 counterexample: with validation and admission passing and the video
download raising, the invocation terminates as an uncaught exception with
the job directory created and still existing, refuting cleanup on every
terminal outcome. -/
theorem C1_cleanup_counterexample :
    (dub_video env_dl_fail cache0 db0 item0).dir_created = true ∧
    (dub_video env_dl_fail cache0 db0 item0).result = RunResult.exception ∧
    (dub_video env_dl_fail cache0 db0 item0).dir_exists = true := by
  refine ⟨by decide, by decide, by decide⟩

/-- C1 witness for the amended theorem. -/
theorem C1_cleanup_iff_witness :
    (dub_video env0 cache0 db0 item0).dir_exists = false ↔
    (dub_video env0 cache0 db0 item0).result ≠ RunResult.exception :=
  C1_cleanup_iff env0 cache0 db0 item0 (by decide)

/-- C5: the synthesis mode is a pure function of the target language's
membership in the cloning-capable set; for target `hi` the cloning path is
taken, the gender classifier is never invoked and every XTTS call uses the
job's own vocal stem as reference; for target `kn` the fallback path is
taken, the classifier runs exactly once and the voice comes from the
Kannada persona table, with the default English pair for languages that
have no mapping. -/
theorem C5_synthesis_router (env : Env) (cache : GlobalCache)
    (db : String → List ℚ) (item : Item) (h : reaches_synthesis env db item) :
    ((dub_video env cache db item).mode =
      some (if item.targetLang ∈ xtts_langs then SynthMode.cloning
        else SynthMode.fallback)) ∧
    (item.targetLang = "hi" →
      (dub_video env cache db item).mode = some SynthMode.cloning ∧
      (dub_video env cache db item).gender_calls = 0 ∧
      ∀ c ∈ (dub_video env cache db item).xtts_calls,
        c.speaker_wav = env.vocals_path) ∧
    (item.targetLang = "kn" →
      (dub_video env cache db item).mode = some SynthMode.fallback ∧
      (dub_video env cache db item).gender_calls = 1 ∧
      (dub_video env cache db item).voice =
        some (selected_voice "kn" (detect_gender env.pyin env.vocals_path)) ∧
      selected_voice "kn" "Male" = "kn-IN-GaganNeural" ∧
      selected_voice "kn" "Female" = "kn-IN-SapnaNeural") ∧
    (∀ lang, edge_voices lang = none →
      lang_voices lang = ("en-US-ChristopherNeural", "en-US-JennyNeural")) := by
  have hs := dub_video_synth_branch env cache db item h
  refine ⟨?_, ?_, ?_, ?_⟩
  · by_cases hxl : item.targetLang ∈ xtts_langs <;>
      simp [hs, hxl, mix_and_upload_mode]
  · intro hhi
    have hxl : item.targetLang ∈ xtts_langs := by rw [hhi]; decide
    refine ⟨?_, ?_, ?_⟩
    · simp [hs, hxl, mix_and_upload_mode]
    · simp [hs, hxl, mix_and_upload_gender_calls, Trace.base]
    · simp [hs, hxl, mix_and_upload_xtts_calls]
      intro c hc
      exact synth_cloning_from_speaker env.xtts env.vocals_path item.targetLang 0 _ c hc
  · intro hkn
    have hxl : ¬ item.targetLang ∈ xtts_langs := by rw [hkn]; decide
    refine ⟨?_, ?_, ?_, rfl, rfl⟩
    · simp [hs, hxl, mix_and_upload_mode]
    · simp [hs, hxl, mix_and_upload_gender_calls]
    · rw [hkn] at hs hxl
      simp [hs, hxl, mix_and_upload_voice, Trace.base]
  · intro lang hnone
    unfold lang_voices
    rw [hnone]
    rfl

/-- C6: a per-segment translation failure never removes the segment or
aborts the job: lengths and segment order are preserved, the failed
segment's translated text equals its source text, and the run still
reaches a synthesis mode. -/
theorem C6_translation_fallback (env : Env) (cache : GlobalCache)
    (db : String → List ℚ) (item : Item) (i : ℕ)
    (h : reaches_synthesis env db item) (hi : i < env.segments.length)
    (hfail : env.tr i = none) :
    (translate_segments env.tr env.segments).length = env.segments.length ∧
    (∀ j (hj : j < env.segments.length),
      ((translate_segments env.tr env.segments).get
        ⟨j, by rw [translate_segments_length]; exact hj⟩).text =
        (env.segments.get ⟨j, hj⟩).text) ∧
    ((translate_segments env.tr env.segments).get
      ⟨i, by rw [translate_segments_length]; exact hi⟩).translated_text =
      some (env.segments.get ⟨i, hi⟩).text ∧
    ((dub_video env cache db item).mode).isSome = true := by
  refine ⟨translate_segments_length env.tr env.segments, ?_, ?_, ?_⟩
  · intro j hj
    rw [translate_segments_get env.tr env.segments j hj]
    exact translate_one_text env.tr j _
  · rw [translate_segments_get env.tr env.segments i hi]
    exact translate_one_failed env.tr i _ hfail
  · have hs := dub_video_synth_branch env cache db item h
    by_cases hxl : item.targetLang ∈ xtts_langs <;>
      simp [hs, hxl, mix_and_upload_mode]

/-- C8: the mixer copies the video stream (`vcodec copy`), attenuates the
background stem to half amplitude, mixes two inputs with the first input's
duration governing, returns a mixing error with the job directory removed
on encoding failure, and on success the output audio is the two-way sum of
the dubbed track and the halved background. -/
theorem C8_mixer (env : Env) (cache : GlobalCache) (db : String → List ℚ)
    (item : Item) (h : reaches_synthesis env db item) :
    ((dub_video env cache db item).mix_graph =
      some (build_mix_graph (video_path item.job_id)
        (dubbed_audio_path item.job_id) env.bg_path
        (final_video_path item.job_id))) ∧
    (build_mix_graph (video_path item.job_id) (dubbed_audio_path item.job_id)
      env.bg_path (final_video_path item.job_id)).vcodec = "copy" ∧
    (build_mix_graph (video_path item.job_id) (dubbed_audio_path item.job_id)
      env.bg_path (final_video_path item.job_id)).bg_volume = 1 / 2 ∧
    (build_mix_graph (video_path item.job_id) (dubbed_audio_path item.job_id)
      env.bg_path (final_video_path item.job_id)).amix_duration = "first" ∧
    (env.mix_ok = false →
      (dub_video env cache db item).result = RunResult.err "Mixing failed" ∧
      (dub_video env cache db item).dir_exists = false) ∧
    (env.mix_ok = true →
      (dub_video env cache db item).final_audio =
        some (amix_first ((dub_video env cache db item).dubbed_track.getD [])
          (attenuate (1 / 2) env.bg_wav))) ∧
    (∀ d bgw : List ℚ,
      (amix_first d (attenuate (1 / 2) bgw)).length = d.length ∧
      ∀ k, k < d.length →
        (amix_first d (attenuate (1 / 2) bgw)).getD k 0 =
          d.getD k 0 + (1 / 2) * bgw.getD k 0) := by
  have hs := dub_video_synth_branch env cache db item h
  refine ⟨?_, rfl, rfl, rfl, ?_, ?_, ?_⟩
  · by_cases hxl : item.targetLang ∈ xtts_langs <;>
      simp [hs, hxl, mix_and_upload_mix_graph]
  · intro hm
    by_cases hxl : item.targetLang ∈ xtts_langs <;>
      (simp only [hs]
       simp [hxl]
       exact mix_and_upload_mix_fail env item.job_id _ hm)
  · intro hm
    by_cases hxl : item.targetLang ∈ xtts_langs <;>
      (simp only [hs]
       simp [hxl, mix_and_upload_dubbed_track]
       rw [mix_and_upload_final_audio env item.job_id _ hm]
       simp [Trace.base])
  · intro d bgw
    refine ⟨amix_first_length d (attenuate (1 / 2) bgw), ?_⟩
    intro k hk
    rw [amix_first_getD d (attenuate (1 / 2) bgw) k hk, attenuate_getD]

/-- C9 (amended): the alignment model is loaded on demand for the first
job's detected language and memoised process-wide without a language key,
so every later job reuses that model regardless of its own detected
language. -/
theorem C9_align_cached_globally (env : Env) (cache : GlobalCache)
    (db : String → List ℚ) (item : Item) (h : reaches_synthesis env db item) :
    (dub_video env cache db item).align_lang_used =
      some (cache.align_lang.getD env.detected_lang) ∧
    (dub_video env cache db item).cache.align_lang =
      some (cache.align_lang.getD env.detected_lang) := by
  have hs := dub_video_synth_branch env cache db item h
  constructor <;>
    (by_cases hxl : item.targetLang ∈ xtts_langs <;>
      simp [hs, hxl, mix_and_upload_align_lang_used, mix_and_upload_cache, Trace.base])

/-- C9 counterexample: a first job with detected language `en` populates
the cache; a second job whose detected language is `fr` still aligns with
the model loaded for `en`. -/
theorem C9_align_counterexample :
    env0.detected_lang = "en" ∧ env_fr.detected_lang = "fr" ∧
    (dub_video env0 cache0 db0 item0).cache.align_lang = some "en" ∧
    (dub_video env_fr (dub_video env0 cache0 db0 item0).cache db0
      item_kn).align_lang_used = some "en" ∧
    some "en" ≠ some env_fr.detected_lang := by
  refine ⟨rfl, rfl, by decide, by decide, by decide⟩

/-- C10: when every segment has empty translated text, or every
per-segment synthesis attempt fails, the dubbed track written is empty and
the run still proceeds through mixing and upload to a success result
carrying the retrieval locator. -/
theorem C10_skipped_synthesis_succeeds (env : Env) (cache : GlobalCache)
    (db : String → List ℚ) (item : Item)
    (h : reaches_synthesis env db item) (hm : env.mix_ok = true)
    (hu : env.upload_ok = true)
    (hskip : (∀ seg ∈ translate_segments env.tr env.segments,
        has_translated_text seg = false) ∨
      ((∀ k, env.xtts k = none) ∧ (∀ k, env.edge k = none))) :
    (dub_video env cache db item).dubbed_track = some [] ∧
    (dub_video env cache db item).result = RunResult.success env.presigned_url := by
  have hs := dub_video_synth_branch env cache db item h
  have hempty_c : (synth_cloning_from env.xtts env.vocals_path item.targetLang 0
      (translate_segments env.tr env.segments)).2 = [] := by
    rcases hskip with hsk | ⟨hx, he⟩
    · rw [synth_cloning_from_no_text env.xtts env.vocals_path item.targetLang 0 _ hsk]
    · exact synth_cloning_from_all_fail env.xtts env.vocals_path item.targetLang 0 _ hx
  have hempty_e : synth_edge_from env.edge 0
      (translate_segments env.tr env.segments) = [] := by
    rcases hskip with hsk | ⟨hx, he⟩
    · exact synth_edge_from_no_text env.edge 0 _ hsk
    · exact synth_edge_from_all_fail env.edge 0 _ he
  constructor
  · by_cases hxl : item.targetLang ∈ xtts_langs <;>
      simp [hs, hxl, mix_and_upload_dubbed_track, hempty_c, hempty_e]
  · by_cases hxl : item.targetLang ∈ xtts_langs <;>
      (simp only [hs]
       simp [hxl]
       exact (mix_and_upload_ok env item.job_id _ hm hu).1)

/-- C5 witness at a Hindi job. -/
theorem C5_synthesis_router_witness :
    (dub_video env0 cache0 db0 item0).mode = some SynthMode.cloning ∧
    (dub_video env0 cache0 db0 item0).gender_calls = 0 := by
  have h := C5_synthesis_router env0 cache0 db0 item0
    (by unfold reaches_synthesis; decide)
  exact ⟨(h.2.1 rfl).1, (h.2.1 rfl).2.1⟩

/-- C6 witness at a run whose single translation raises. -/
theorem C6_translation_fallback_witness :
    (translate_segments env_tr_fail.tr env_tr_fail.segments).length =
      env_tr_fail.segments.length ∧
    ((dub_video env_tr_fail cache0 db0 item0).mode).isSome = true := by
  have h := C6_translation_fallback env_tr_fail cache0 db0 item0 0
    (by unfold reaches_synthesis; decide) (by decide) rfl
  exact ⟨h.1, h.2.2.2⟩

/-- C8 witness on a successful run. -/
theorem C8_mixer_witness :
    (dub_video env0 cache0 db0 item0).mix_graph =
      some (build_mix_graph (video_path "job1") (dubbed_audio_path "job1")
        env0.bg_path (final_video_path "job1")) :=
  (C8_mixer env0 cache0 db0 item0 (by unfold reaches_synthesis; decide)).1

/-- C9 witness: a fresh cache records the first detected language. -/
theorem C9_align_cached_globally_witness :
    (dub_video env0 cache0 db0 item0).align_lang_used = some "en" :=
  (C9_align_cached_globally env0 cache0 db0 item0
    (by unfold reaches_synthesis; decide)).1

/-- C10 witness: all-empty translations still yield a success result. -/
theorem C10_skipped_synthesis_succeeds_witness :
    (dub_video env_empty_tr cache0 db0 item0).dubbed_track = some [] ∧
    (dub_video env_empty_tr cache0 db0 item0).result =
      RunResult.success env_empty_tr.presigned_url :=
  C10_skipped_synthesis_succeeds env_empty_tr cache0 db0 item0
    (by unfold reaches_synthesis; decide) rfl rfl (Or.inl (by decide))

end DubbingSoftware
